import Mathlib

set_option linter.unusedVariables false
set_option maxRecDepth 8192

/-!
Verification of the `ECB_DATAINFO` client (`ecb_datainfo/ecb_datainfo.py`,
`ecb_datainfo/config.py`): a shallow embedding of the pure decision logic of
the `ECB_DATA_INFO` class — request-URL construction, response-status
classification, bulk series-key listing, keyword filtering of series-key
tables, dimension-value lookup, and the post-parse normalization of fetched
observation tables — together with theorems settling the specification's
claims about that logic.
-/

namespace ECBDataInfo

/-- The module-level default endpoint `API_ENDPOINT` of `ecb_datainfo.py`. -/
def API_ENDPOINT : String := "https://sdw-wsrest.ecb.europa.eu"

/-- A table row, as parsed from a CSV body: one cell per column. -/
def Row : Type := List String

instance : DecidableEq Row := by
  unfold Row
  infer_instance

/-! ### URL building (`ECB_DATA_INFO._build_url`)

The optional parameters of `_build_url` arrive as Python values that may be
`None`; we embed each as an `Option` of the corresponding type.  Python
truthiness on these values (`if start_date:` …) is embedded per type:
`None`, the empty string, `0` and `False` are falsy. -/

/-- Python truthiness of an optional string (`None` and `""` are falsy). -/
def strTruthy : Option String → Bool
  | none => false
  | some s => !(s == "")

/-- Python truthiness of an optional int (`None` and `0` are falsy). -/
def intTruthy : Option Int → Bool
  | none => false
  | some n => !(n == 0)

/-- Python truthiness of an optional bool (`None` and `False` are falsy). -/
def boolTruthy : Option Bool → Bool
  | none => false
  | some b => b

/-- Rendering of an optional string inside a Python f-string; only ever
used on truthy values, where it is the string itself. -/
def strVal : Option String → String
  | none => "None"
  | some s => s

/-- Rendering of an optional int inside a Python f-string (decimal). -/
def intVal : Option Int → String
  | none => "None"
  | some n => toString n

/-- Rendering of an optional bool inside a Python f-string: Python prints
`True` / `False`. -/
def boolVal : Option Bool → String
  | none => "None"
  | some b => if b then "True" else "False"

/-- The optional query parameters of `_build_url`, in signature order. -/
structure BuildUrlArgs where
  start_date : Option String
  end_date : Option String
  detail : Option String
  update_after : Option String
  first_n_observations : Option Int
  last_n_observations : Option Int
  include_history : Option Bool
deriving DecidableEq

/-- Split a character list at the first `'.'`, as Python's
`series_key.split(".", 1)` does for a key containing a dot; `none` when no
dot occurs (where the Python two-target unpacking would raise). -/
def splitFirstDotAux : List Char → Option (List Char × List Char)
  | [] => none
  | c :: cs =>
    if c = '.' then some ([], cs)
    else
      match splitFirstDotAux cs with
      | none => none
      | some (a, b) => some (c :: a, b)

/-- `series_key.split(".", 1)` on strings: the part before the first dot and
the part after it. -/
def splitFirstDot (s : String) : Option (String × String) :=
  match splitFirstDotAux s.data with
  | none => none
  | some (a, b) => some (String.mk a, String.mk b)

/-- `ECB_DATA_INFO._build_url` (ecb_datainfo.py lines 646–656): split the
series key on the first dot, build the base URL, then append each optional
parameter in the fixed source order when it is truthy.  `none` models the
`ValueError` raised by the unpacking when the key has no dot. -/
def build_url (api_endpoint : String) (series_key : String)
    (a : BuildUrlArgs) : Option String :=
  match splitFirstDot series_key with
  | none => none
  | some (data_flow, series_key_rest) =>
    let req_url := api_endpoint ++ "/service/data/" ++ data_flow ++ "/" ++
      series_key_rest ++ "?format=csvdata"
    let req_url := if strTruthy a.start_date then
      req_url ++ ("&startPeriod=" ++ strVal a.start_date) else req_url
    let req_url := if strTruthy a.end_date then
      req_url ++ ("&endPeriod=" ++ strVal a.end_date) else req_url
    let req_url := if strTruthy a.detail then
      req_url ++ ("&detail=" ++ strVal a.detail) else req_url
    let req_url := if strTruthy a.update_after then
      req_url ++ ("&updatedAfter=" ++ strVal a.update_after) else req_url
    let req_url := if intTruthy a.first_n_observations then
      req_url ++ ("&firstNObservations=" ++ intVal a.first_n_observations) else req_url
    let req_url := if intTruthy a.last_n_observations then
      req_url ++ ("&lastNObservations=" ++ intVal a.last_n_observations) else req_url
    let req_url := if boolTruthy a.include_history then
      req_url ++ ("&includeHistory=" ++ boolVal a.include_history) else req_url
    some req_url

/-! ### Response validation (`ECB_DATA_INFO.__connection_handler`) -/

/-- The inline status-code table `errors_msgs` of `__connection_handler`
(ecb_datainfo.py lines 64–72). -/
def errors_msgs : List (Nat × String) := [
  (304, "No changes. There have been no changes to the data since the timestamp supplied in the If-Modified-Since header."),
  (400, "Syntax error. Syntactic or semantic issue with the parameters supplied."),
  (404, "No results found. There are no results matching the query."),
  (406, "Not Acceptable."),
  (500, "Internal Server Error. Feel free to try again later or to contact the support hotline https://ecb-registration.escb.eu/statistical-information."),
  (501, "Not implemented."),
  (503, "Service unavailable: Web service is temporarily unavailable.")]

/-- Outcome of `__connection_handler` on a (possibly unwrapped) response:
`success` logs an informational entry and returns; `raiseError m` raises
`Exception(m)`; `raiseForStatus` logs two error entries and then calls the
response's own `raise_for_status()`. -/
inductive HandlerOutcome
  | success
  | raiseError (msg : String)
  | raiseForStatus
deriving DecidableEq

/-- `ECB_DATA_INFO.__connection_handler` (ecb_datainfo.py lines 73–81),
classifying the status code of the (already unwrapped) response. -/
def connection_handler (status_code : Nat) : HandlerOutcome :=
  if status_code = 200 then HandlerOutcome.success
  else
    match errors_msgs.lookup status_code with
    | some msg => HandlerOutcome.raiseError
        ("Request Error Code: " ++ toString status_code ++ " - " ++ msg)
    | none => HandlerOutcome.raiseForStatus

/-- Overall result of validating a response: `ok` means the validator
returns without raising; `exn m` an `Exception(m)` from the handler itself;
`httpError c` an `HTTPError` raised by `raise_for_status()`. -/
inductive ValidationResult
  | ok
  | exn (msg : String)
  | httpError (code : Nat)
deriving DecidableEq

/-- `requests.models.Response.raise_for_status` raises `HTTPError` exactly
for client-error (4xx) and server-error (5xx) status codes; this models the
external `requests` library's documented behaviour. -/
def raise_for_status_raises (status_code : Nat) : Bool :=
  400 ≤ status_code && status_code < 600

/-- End-to-end result of `__connection_handler`, with the delegation to
`raise_for_status()` resolved by the `requests` semantics above. -/
def validate (status_code : Nat) : ValidationResult :=
  match connection_handler status_code with
  | HandlerOutcome.success => ValidationResult.ok
  | HandlerOutcome.raiseError m => ValidationResult.exn m
  | HandlerOutcome.raiseForStatus =>
    if raise_for_status_raises status_code then ValidationResult.httpError status_code
    else ValidationResult.ok

/-- `ERROR_CODES_DICT` of `config.py` (lines 4–57): the broader secondary
status table, keys in source order with their `message` fields. -/
def ERROR_CODES_DICT : List (Nat × String) := [
  (400, "Bad request"),
  (401, "Failed to authenticate, check your authenticat…"),
  (410, "Unauthorized"),
  (403, "Forbidden"),
  (404, "Not Found"),
  (405, "Method not allowed"),
  (406, "Not acceptable"),
  (409, "Conflict"),
  (415, "Unsopprted Media Type"),
  (500, "Internal Server Error"),
  (502, "Bad Gateway"),
  (503, "Service Unavailable"),
  (504, "Gateway Timeout")]

/-! ### Bulk series-key listing (`ECB_DATA_INFO.all_data_keys_for_dataflow`) -/

/-- What `all_data_keys_for_dataflow` does, as an effect descriptor:
`fetched url` — the method issues a GET against `url` (with a CSV Accept
header and 90 s timeout), validates the response and parses the CSV body;
`absent` — the method logs an error and falls off the end, returning
`None`, without issuing any HTTP request and without raising. -/
inductive BulkResult
  | fetched (url : String)
  | absent
deriving DecidableEq

/-- `ECB_DATA_INFO.all_data_keys_for_dataflow` (ecb_datainfo.py lines
439–449).  `api_endpoint` is the endpoint the instance was configured with
(`self.api_endpoint`); `all_dataflows_index` the index of the cached
dataflow listing `self.all_dataflows`.  The request URL is built from the
literal host in the source, not from `api_endpoint`. -/
def all_data_keys_for_dataflow (api_endpoint : String)
    (all_dataflows_index : List String) (dataflow : String) : BulkResult :=
  if dataflow ∈ all_dataflows_index then
    BulkResult.fetched ("https://data-api.ecb.europa.eu/service/data/" ++ dataflow)
  else
    BulkResult.absent

/-! ### Keyword filtering (`ECB_DATA_INFO.search_data_keys_for_dataflow`) -/

/-- Does `pat` occur as a contiguous sublist of the second argument?
Embeds Python's substring operator `pat in s` on the character lists. -/
def subOccurs (pat : List Char) : List Char → Bool
  | [] => pat.isEmpty
  | c :: cs => pat.isPrefixOf (c :: cs) || subOccurs pat cs

/-- Python's `key_word in title` substring test on strings. -/
def strContainsSub (s pat : String) : Bool :=
  subOccurs pat.data s.data

/-- Python's `str.lower()` on the ASCII titles and keywords handled here,
character by character. -/
def strLower (s : String) : String :=
  String.mk (s.data.map Char.toLower)

/-- `pandas.Series.unique().tolist()`: the distinct values of a list in
order of first occurrence. -/
def uniqueFirst : List String → List String
  | [] => []
  | x :: xs => x :: (uniqueFirst xs).filter (fun y => !(y == x))

/-- A row of an `all_data_keys_for_dataflow` table: its `TITLE_COMPL` cell
together with the remaining cells. -/
structure KeyRow where
  title_compl : String
  rest : List String
deriving DecidableEq

/-- `ECB_DATA_INFO.search_data_keys_for_dataflow` (ecb_datainfo.py lines
487–489): lower-case the distinct `TITLE_COMPL` values, keep those that
contain `key_word` verbatim, and return (with the index reset) the rows
whose lower-cased title is among the kept values. -/
def search_data_keys_for_dataflow (key_word : String)
    (tbl : List KeyRow) : List KeyRow :=
  let title_compl_lower :=
    (uniqueFirst (tbl.map (fun r => r.title_compl))).map strLower
  let key_word_results :=
    title_compl_lower.filter (fun title_c => strContainsSub title_c key_word)
  tbl.filter (fun r => (key_word_results.contains (strLower r.title_compl)))

/-- The specification's reading of the filter, stated from its words alone:
a case-insensitive substring match of the keyword against the complete
title (both sides lower-cased). -/
def specCaseInsensitiveMatch (key_word title : String) : Bool :=
  strContainsSub (strLower title) (strLower key_word)

/-! ### Dimension lookup (`ECB_DATA_INFO.search_dataflow_dimension_values`)

The SDMX metadata provider is external; we embed the slice of its object
model the methods consume: a dataflow resolves (or not) to a data structure
definition carrying an ordered list of dimensions, each with a name and an
enumerated code list. -/

/-- One dimension component of a DSD: its id and its enumerated
representation, flattened to (code, description) pairs. -/
structure DimComp where
  name : String
  enumerated : List (String × String)
deriving DecidableEq

/-- The slice of a data structure definition used here. -/
structure DSD where
  dimensions : List DimComp
deriving DecidableEq

/-- The remote metadata provider: which dataflow identifiers resolve to a
DSD.  `sdmx.to_pandas` flattening is embedded as the projections below. -/
def Remote : Type := String → Option DSD

/-- The `ValueError` message for an unresolvable dataflow identifier. -/
def unresolvedFlowMsg (dataflow : String) : String :=
  "No DataflowDefinition found for dataflow: " ++ dataflow

/-- The `ValueError` message for a dimension absent from a dataflow
(ecb_datainfo.py line 312). -/
def unresolvedDimMsg (dimension dataflow : String) : String :=
  "Dimension \x27" ++ dimension ++ "\x27 not found in dataflow: " ++ dataflow

/-- `ECB_DATA_INFO.search_dataflow_dimensions` (ecb_datainfo.py lines
214–230): resolve the dataflow, fail if it has no definition, else flatten
its dimension components to their names. -/
def search_dataflow_dimensions (remote : Remote) (dataflow : String) :
    Except String (List String) :=
  match remote dataflow with
  | none => Except.error (unresolvedFlowMsg dataflow)
  | some dsd => Except.ok (dsd.dimensions.map (fun d => d.name))

/-- `ECB_DATA_INFO.search_dataflow_dimension_values` (ecb_datainfo.py lines
293–320): resolve the dataflow, list its dimension names, raise the
unresolved-dimension `ValueError` when the requested name is absent, else
fetch that dimension's enumerated values.  The final `error` arm embeds the
`KeyError` a failing `dimensions.get` would raise; it is unreachable under
the membership guard. -/
def search_dataflow_dimension_values (remote : Remote)
    (dataflow dimension : String) : Except String (List (String × String)) :=
  match remote dataflow with
  | none => Except.error (unresolvedFlowMsg dataflow)
  | some dsd =>
    if dimension ∈ dsd.dimensions.map (fun d => d.name) then
      match dsd.dimensions.find? (fun d => d.name == dimension) with
      | some d => Except.ok d.enumerated
      | none => Except.error ("KeyError: " ++ dimension)
    else
      Except.error (unresolvedDimMsg dimension dataflow)

/-! ### Observation-table normalization (`ECB_DATA_INFO.get_ecb_data`)

After `pd.read_csv`, the parsed table has the CSV's columns and a default
`RangeIndex` 0, 1, 2, …; `get_ecb_data` (lines 725–730) then renames
`TIME_PERIOD` to `Date`, moves it to the index and parses it as datetimes
when present, and finally sorts by the index either way. -/

/-- The default `RangeIndex` pairing of `pd.read_csv`: row `i` carries
index label `k + i`. -/
def rangeIdx (k : Nat) : List Row → List (Nat × Row)
  | [] => []
  | r :: rs => (k, r) :: rangeIdx (k + 1) rs

/-- Insert a keyed row into a key-sorted list (ascending). -/
def insertByKey (p : Nat × Row) : List (Nat × Row) → List (Nat × Row)
  | [] => [p]
  | q :: qs => if p.1 ≤ q.1 then p :: q :: qs else q :: insertByKey p qs

/-- Sort keyed rows ascending by key (insertion sort). -/
def sortByKey : List (Nat × Row) → List (Nat × Row)
  | [] => []
  | p :: ps => insertByKey p (sortByKey ps)

/-- `DataFrame.sort_index(ascending=…)`: sort by the index key, reversing
for the descending order.  On the unique keys produced here (a `RangeIndex`
or distinct timestamps) this coincides with pandas regardless of its sort
kind. -/
def sort_index (pairs : List (Nat × Row)) (ascending : Bool) :
    List (Nat × Row) :=
  if ascending then sortByKey pairs else (sortByKey pairs).reverse

/-- `pd.to_datetime` on the ISO / SDMX period strings the API returns
("2013", "2013-01", "2013-01-01", …), embedded as the number formed by the
decimal digits in order — a key whose order agrees with chronological
order within one frequency. -/
def toDatetimeKey (s : String) : Nat :=
  s.data.foldl (fun acc c => if c.isDigit then acc * 10 + (c.toNat - 48) else acc) 0

/-- Index position of the first column named `c`, as
`DataFrame.set_index` locates the column it consumes. -/
def colPos (columns : List String) (c : String) : Nat :=
  columns.indexOf c

/-- Remove the cell at position `i` of a row. -/
def dropCell (i : Nat) (r : Row) : Row :=
  List.take i r ++ List.drop (i + 1) r

/-- Cell at position `i` of a row (empty when out of range). -/
def cellAt (i : Nat) (r : Row) : String :=
  List.getD r i ""

/-- The normalized frame `get_ecb_data` returns: `noTime` — the parsed
columns with the `RangeIndex` pairing; `timeIdx` — the remaining columns
with rows keyed by their parsed `Date` index. -/
inductive NormFrame
  | noTime (columns : List String) (indexed : List (Nat × Row))
  | timeIdx (columns : List String) (indexed : List (Nat × Row))
deriving DecidableEq

/-- The post-parse normalization of `ECB_DATA_INFO.get_ecb_data`
(ecb_datainfo.py lines 725–730) on the parsed CSV table: when a
`TIME_PERIOD` column is present, rename it to `Date`, move it to the index
parsed as datetimes, and sort by that index; otherwise keep the table as
parsed and sort by the default `RangeIndex`. -/
def get_ecb_data_normalize (columns : List String) (rows : List Row)
    (ascending : Bool) : NormFrame :=
  if "TIME_PERIOD" ∈ columns then
    let i := colPos columns "TIME_PERIOD"
    let newCols := dropCell i columns
    let indexed := rows.map (fun r => (toDatetimeKey (cellAt i r), dropCell i r))
    NormFrame.timeIdx newCols (sort_index indexed ascending)
  else
    NormFrame.noTime columns (sort_index (rangeIdx 0 rows) ascending)

/-! ### Concrete fixtures used by witnesses -/

/-- A small concrete data structure definition, shaped like the `EXR`
examples in the source's doc strings. -/
def exampleDSD : DSD :=
  ⟨[⟨"FREQ", [("A", "Annual"), ("M", "Monthly")]⟩,
    ⟨"CURRENCY", [("USD", "US dollar")]⟩]⟩

/-- A concrete remote metadata provider resolving only `EXR`. -/
def exampleRemote : Remote :=
  fun dataflow => if dataflow = "EXR" then some exampleDSD else none

/-! ## Helper lemmas -/

theorem string_append_ite (u x : String) (c : Bool) :
    (if c then u ++ x else u) = u ++ (if c then x else "") := by
  cases c <;> simp

theorem splitFirstDotAux_append (a b : List Char) (h : '.' ∉ a) :
    splitFirstDotAux (a ++ '.' :: b) = some (a, b) := by
  induction a with
  | nil => simp [splitFirstDotAux]
  | cons c cs ih =>
    simp only [List.mem_cons, not_or] at h
    simp [splitFirstDotAux, Ne.symm h.1, ih h.2]

theorem splitFirstDot_append (d r : String) (h : '.' ∉ d.data) :
    splitFirstDot (d ++ "." ++ r) = some (d, r) := by
  unfold splitFirstDot
  have hd : (d ++ "." ++ r).data = d.data ++ '.' :: r.data := by
    simp [String.data_append]
  rw [hd, splitFirstDotAux_append _ _ h]

theorem insertByKey_head_le (k : Nat) (r : Row) (rs : List Row) :
    insertByKey (k, r) (rangeIdx (k + 1) rs) = (k, r) :: rangeIdx (k + 1) rs := by
  cases rs with
  | nil => rfl
  | cons a as => simp [rangeIdx, insertByKey, Nat.le_succ]

theorem sortByKey_rangeIdx (k : Nat) (rows : List Row) :
    sortByKey (rangeIdx k rows) = rangeIdx k rows := by
  induction rows generalizing k with
  | nil => rfl
  | cons r rs ih => simp [rangeIdx, sortByKey, ih, insertByKey_head_le]

theorem search_values_eval (remote : Remote) (dataflow dimension : String)
    (dsd : DSD) (h : remote dataflow = some dsd) :
    search_dataflow_dimension_values remote dataflow dimension =
      (if dimension ∈ dsd.dimensions.map (fun d => d.name) then
        match dsd.dimensions.find? (fun d => d.name == dimension) with
        | some d => Except.ok d.enumerated
        | none => Except.error ("KeyError: " ++ dimension)
      else Except.error (unresolvedDimMsg dimension dataflow)) := by
  unfold search_dataflow_dimension_values
  rw [h]

theorem search_dimensions_eval (remote : Remote) (dataflow : String)
    (dsd : DSD) (h : remote dataflow = some dsd) :
    search_dataflow_dimensions remote dataflow =
      Except.ok (dsd.dimensions.map (fun d => d.name)) := by
  unfold search_dataflow_dimensions
  rw [h]

theorem mem_uniqueFirst (x : String) (l : List String) :
    x ∈ uniqueFirst l ↔ x ∈ l := by
  induction l with
  | nil => simp [uniqueFirst]
  | cons a as ih =>
    by_cases hxa : x = a <;>
      simp [uniqueFirst, List.mem_filter, ih, hxa]

/-! ## Claim theorems -/

/-- C1: for every series key of the form `<dataflow>.<rest>` (the dataflow
segment containing no dot, so the split is at the first dot) and every
combination of the optional parameters, `_build_url` returns exactly
`<endpoint>/service/data/<dataflow>/<rest>?format=csvdata` followed by the
`startPeriod`, `endPeriod`, `detail`, `updatedAfter`, `firstNObservations`,
`lastNObservations`, `includeHistory` terms in that fixed order, each
present exactly when its parameter is truthy, with the raw value
substituted and no trailing `&` when no optional parameter is set. -/
theorem build_url_exact (api_endpoint data_flow series_key_rest : String)
    (hdot : '.' ∉ data_flow.data) (a : BuildUrlArgs) :
    build_url api_endpoint (data_flow ++ "." ++ series_key_rest) a =
      some ((api_endpoint ++ "/service/data/" ++ data_flow ++ "/" ++
          series_key_rest ++ "?format=csvdata")
        ++ (if strTruthy a.start_date then "&startPeriod=" ++ strVal a.start_date else "")
        ++ (if strTruthy a.end_date then "&endPeriod=" ++ strVal a.end_date else "")
        ++ (if strTruthy a.detail then "&detail=" ++ strVal a.detail else "")
        ++ (if strTruthy a.update_after then "&updatedAfter=" ++ strVal a.update_after else "")
        ++ (if intTruthy a.first_n_observations then
              "&firstNObservations=" ++ intVal a.first_n_observations else "")
        ++ (if intTruthy a.last_n_observations then
              "&lastNObservations=" ++ intVal a.last_n_observations else "")
        ++ (if boolTruthy a.include_history then
              "&includeHistory=" ++ boolVal a.include_history else "")) := by
  unfold build_url
  rw [splitFirstDot_append _ _ hdot]
  simp only [string_append_ite]

/-- Witness for C1 at the series key and parameters of the source's
`get_ecb_data` doc-string example. -/
theorem build_url_exact_witness :
    ('.' ∉ ("FM" : String).data) ∧
    build_url API_ENDPOINT ("FM" ++ "." ++ "M.U2.EUR.RT.MM.EURIBOR1YD_.HSTA")
      ⟨some "2020-01-01", some "2024-10-23", none, none, none, none, some true⟩ =
      some "https://sdw-wsrest.ecb.europa.eu/service/data/FM/M.U2.EUR.RT.MM.EURIBOR1YD_.HSTA?format=csvdata&startPeriod=2020-01-01&endPeriod=2024-10-23&includeHistory=True" :=
  ⟨by decide,
    (build_url_exact API_ENDPOINT "FM" "M.U2.EUR.RT.MM.EURIBOR1YD_.HSTA"
      (by decide)
      ⟨some "2020-01-01", some "2024-10-23", none, none, none, none, some true⟩).trans
      (by decide)⟩

/-- C3: for every optional parameter of `_build_url`, an explicitly passed
falsy value (`""` for the string parameters, `0` for the observation caps,
`False` for the history flag) produces exactly the URL obtained by not
supplying the parameter at all — inclusion is governed by truthiness. -/
theorem build_url_falsy_ignored (ep key : String) (sd ed dt ua : Option String)
    (fo lo : Option Int) (hist : Option Bool) :
    (build_url ep key ⟨some "", ed, dt, ua, fo, lo, hist⟩ =
      build_url ep key ⟨none, ed, dt, ua, fo, lo, hist⟩) ∧
    (build_url ep key ⟨sd, some "", dt, ua, fo, lo, hist⟩ =
      build_url ep key ⟨sd, none, dt, ua, fo, lo, hist⟩) ∧
    (build_url ep key ⟨sd, ed, some "", ua, fo, lo, hist⟩ =
      build_url ep key ⟨sd, ed, none, ua, fo, lo, hist⟩) ∧
    (build_url ep key ⟨sd, ed, dt, some "", fo, lo, hist⟩ =
      build_url ep key ⟨sd, ed, dt, none, fo, lo, hist⟩) ∧
    (build_url ep key ⟨sd, ed, dt, ua, some 0, lo, hist⟩ =
      build_url ep key ⟨sd, ed, dt, ua, none, lo, hist⟩) ∧
    (build_url ep key ⟨sd, ed, dt, ua, fo, some 0, hist⟩ =
      build_url ep key ⟨sd, ed, dt, ua, fo, none, hist⟩) ∧
    (build_url ep key ⟨sd, ed, dt, ua, fo, lo, some false⟩ =
      build_url ep key ⟨sd, ed, dt, ua, fo, lo, none⟩) := by
  refine ⟨?_, ?_, ?_, ?_, ?_, ?_, ?_⟩ <;> rfl

/-- C2: the validator treats 200 as success; for a status code in its
inline table (whose keys are exactly 304, 400, 404, 406, 500, 501, 503) it
raises an error embedding the code and the table message; for any other
code it logs and delegates to the response's own `raise_for_status`. -/
theorem connection_handler_classifies (c : Nat) :
    (c = 200 → connection_handler c = HandlerOutcome.success) ∧
    (∀ m, errors_msgs.lookup c = some m →
      connection_handler c = HandlerOutcome.raiseError
        ("Request Error Code: " ++ toString c ++ " - " ++ m)) ∧
    (errors_msgs.map Prod.fst = [304, 400, 404, 406, 500, 501, 503]) ∧
    (c ≠ 200 → errors_msgs.lookup c = none →
      connection_handler c = HandlerOutcome.raiseForStatus) := by
  refine ⟨?_, ?_, by decide, ?_⟩
  · intro h
    simp [connection_handler, h]
  · intro m hm
    have hc : c ≠ 200 := by
      intro h
      subst h
      have h0 : errors_msgs.lookup 200 = none := by decide
      rw [h0] at hm
      exact Option.noConfusion hm
    simp [connection_handler, hc, hm]
  · intro h1 h2
    simp [connection_handler, h1, h2]

/-- Witness for C2 at status code 404. -/
theorem connection_handler_classifies_witness :
    connection_handler 404 = HandlerOutcome.raiseError
      ("Request Error Code: " ++ toString 404 ++ " - " ++
        "No results found. There are no results matching the query.") :=
  (connection_handler_classifies 404).2.1
    "No results found. There are no results matching the query." (by decide)

/-- C10: a status code that is neither 200 nor in the inline table and lies
below 400 makes the validator's delegation to `raise_for_status` raise
nothing, so validation completes without error. -/
theorem validate_ok_below_400 (c : Nat) (h200 : c ≠ 200)
    (htab : errors_msgs.lookup c = none) (hlt : c < 400) :
    validate c = ValidationResult.ok := by
  have hge : ¬ (400 ≤ c) := by omega
  simp [validate, connection_handler, h200, htab, raise_for_status_raises, hge]

/-- Witness for C10 at status code 201. -/
theorem validate_ok_below_400_witness :
    validate 201 = ValidationResult.ok :=
  validate_ok_below_400 201 (by decide) (by decide) (by decide)

/-- C5 counterexample: 502 is in `ERROR_CODES_DICT` with message
"Bad Gateway", yet the validator routes it to the `raise_for_status`
delegation rather than raising an error built from that table. -/
theorem secondary_table_not_consulted_cex :
    ERROR_CODES_DICT.lookup 502 = some "Bad Gateway" ∧
    connection_handler 502 = HandlerOutcome.raiseForStatus ∧
    HandlerOutcome.raiseForStatus ≠
      HandlerOutcome.raiseError ("Request Error Code: 502 - Bad Gateway") := by
  exact ⟨by decide, by decide, by decide⟩

/-- C5 amended: the validator never consults `ERROR_CODES_DICT`; for every
status code in that broader table its behaviour is decided solely by the
inline table, so 400/404/406/500/503 raise with the inline messages while
401/403/405/409/410/415/502/504 take the `raise_for_status` path. -/
theorem secondary_table_codes_routed (c : Nat)
    (hc : c ∈ ERROR_CODES_DICT.map Prod.fst) :
    connection_handler c =
      (match errors_msgs.lookup c with
       | some m => HandlerOutcome.raiseError
           ("Request Error Code: " ++ toString c ++ " - " ++ m)
       | none => HandlerOutcome.raiseForStatus) := by
  have hcases : c = 400 ∨ c = 401 ∨ c = 410 ∨ c = 403 ∨ c = 404 ∨ c = 405 ∨
      c = 406 ∨ c = 409 ∨ c = 415 ∨ c = 500 ∨ c = 502 ∨ c = 503 ∨ c = 504 := by
    simpa [ERROR_CODES_DICT] using hc
  rcases hcases with rfl | rfl | rfl | rfl | rfl | rfl | rfl | rfl | rfl |
    rfl | rfl | rfl | rfl <;> decide

/-- Witness for the amended C5 at status code 502. -/
theorem secondary_table_codes_routed_witness :
    connection_handler 502 = HandlerOutcome.raiseForStatus :=
  secondary_table_codes_routed 502 (by decide)

/-- C4 counterexample: on a table with no time-period column and
`ascending := false`, `get_ecb_data` returns the rows in reversed order —
the parsed CSV row order is not preserved for every sort preference. -/
theorem no_time_sort_cex :
    get_ecb_data_normalize ["KEY"] [["a"], ["b"]] false =
      NormFrame.noTime ["KEY"] [(1, ["b"]), (0, ["a"])] ∧
    get_ecb_data_normalize ["KEY"] [["a"], ["b"]] false ≠
      get_ecb_data_normalize ["KEY"] [["a"], ["b"]] true := by
  exact ⟨by decide, by decide⟩

/-- C4 amended: when the fetched table has no time-period column,
`get_ecb_data` applies no `Date` rename and no date parsing, but still
sorts by the default positional integer index: the parsed row order is
preserved when `ascending` is true (the default) and reversed when it is
false. -/
theorem no_time_normalize (columns : List String) (rows : List Row)
    (ascending : Bool) (h : "TIME_PERIOD" ∉ columns) :
    get_ecb_data_normalize columns rows ascending =
      NormFrame.noTime columns
        (if ascending then rangeIdx 0 rows else (rangeIdx 0 rows).reverse) := by
  unfold get_ecb_data_normalize
  rw [if_neg h]
  simp [sort_index, sortByKey_rangeIdx]

/-- Witness for the amended C4 on a two-row table with `ascending := false`. -/
theorem no_time_normalize_witness :
    ("TIME_PERIOD" ∉ ["KEY", "FREQ"]) ∧
    get_ecb_data_normalize ["KEY", "FREQ"] [["k1", "A"], ["k2", "M"]] false =
      NormFrame.noTime ["KEY", "FREQ"]
        ((rangeIdx 0 [["k1", "A"], ["k2", "M"]]).reverse) :=
  ⟨by decide,
    no_time_normalize ["KEY", "FREQ"] [["k1", "A"], ["k2", "M"]] false (by decide)⟩

/-- C6 counterexample: the keyword is matched verbatim against the
lower-cased titles, so the capitalised keyword "Trade" fails to select a
row titled "Trade balance" even though a case-insensitive match (as the
spec words it) would match. -/
theorem keyword_case_cex :
    search_data_keys_for_dataflow "Trade" [⟨"Trade balance", []⟩] = [] ∧
    specCaseInsensitiveMatch "Trade" "Trade balance" = true := by
  exact ⟨by decide, by decide⟩

/-- C6 amended: `search_data_keys_for_dataflow` returns exactly the rows
whose lower-cased complete title contains the keyword verbatim (the
distinct-title detour does not change which rows are returned); the match
is case-insensitive only in the titles, not in the keyword. -/
theorem search_keys_filters_lowered (key_word : String) (tbl : List KeyRow) :
    search_data_keys_for_dataflow key_word tbl =
      tbl.filter (fun r => strContainsSub (strLower r.title_compl) key_word) := by
  unfold search_data_keys_for_dataflow
  apply List.filter_congr
  intro r hr
  have hmem : strLower r.title_compl ∈
      (uniqueFirst (tbl.map (fun r => r.title_compl))).map strLower :=
    List.mem_map_of_mem _ ((mem_uniqueFirst _ _).mpr (List.mem_map_of_mem _ hr))
  cases hp : strContainsSub (strLower r.title_compl) key_word with
  | true =>
    have hin : strLower r.title_compl ∈
        ((uniqueFirst (tbl.map (fun r => r.title_compl))).map strLower).filter
          (fun title_c => strContainsSub title_c key_word) :=
      List.mem_filter.mpr ⟨hmem, hp⟩
    simpa [List.elem_iff] using hin
  | false =>
    have hout : strLower r.title_compl ∉
        ((uniqueFirst (tbl.map (fun r => r.title_compl))).map strLower).filter
          (fun title_c => strContainsSub title_c key_word) := by
      intro hin
      have hpt := (List.mem_filter.mp hin).2
      rw [hp] at hpt
      exact Bool.noConfusion hpt
    simpa [List.elem_iff] using hout

/-- C7: for a dataflow identifier absent from the cached listing,
`all_data_keys_for_dataflow` logs an error and returns `None` without
issuing any HTTP request and without raising. -/
theorem bulk_absent_dataflow (api_endpoint : String) (flows : List String)
    (dataflow : String) (h : dataflow ∉ flows) :
    all_data_keys_for_dataflow api_endpoint flows dataflow = BulkResult.absent := by
  simp [all_data_keys_for_dataflow, h]

/-- Witness for C7 at a dataflow identifier not in the listing. -/
theorem bulk_absent_dataflow_witness :
    all_data_keys_for_dataflow API_ENDPOINT ["EXR", "SEE"] "NOPE" =
      BulkResult.absent :=
  bulk_absent_dataflow API_ENDPOINT ["EXR", "SEE"] "NOPE" (by decide)

/-- C9: for a dataflow identifier present in the cached listing,
`all_data_keys_for_dataflow` issues its bulk CSV request against the fixed
host `https://data-api.ecb.europa.eu`, and the result is independent of the
`api_endpoint` the instance was configured with. -/
theorem bulk_fixed_host (ep1 ep2 : String) (flows : List String)
    (dataflow : String) (h : dataflow ∈ flows) :
    all_data_keys_for_dataflow ep1 flows dataflow =
      BulkResult.fetched ("https://data-api.ecb.europa.eu/service/data/" ++ dataflow) ∧
    all_data_keys_for_dataflow ep1 flows dataflow =
      all_data_keys_for_dataflow ep2 flows dataflow := by
  constructor <;> simp [all_data_keys_for_dataflow, h]

/-- Witness for C9: a configured non-default endpoint is ignored by the
bulk listing request. -/
theorem bulk_fixed_host_witness :
    all_data_keys_for_dataflow "http://localhost:8080" ["EXR"] "EXR" =
      BulkResult.fetched "https://data-api.ecb.europa.eu/service/data/EXR" :=
  (bulk_fixed_host "http://localhost:8080" API_ENDPOINT ["EXR"] "EXR"
    (by decide)).1.trans (by decide)

/-- C8: for a dataflow that resolves to a structure definition,
`search_dataflow_dimension_values` raises the unresolved-dimension error
naming the dimension and dataflow exactly when the dimension is absent
from the dataflow's dimension list, raises nothing when it is present, and
consequently listing the dimensions and then listing values for each
returned name never raises an error. -/
theorem dimension_values_resolution (remote : Remote)
    (dataflow dimension : String) (dsd : DSD) (h : remote dataflow = some dsd) :
    (search_dataflow_dimension_values remote dataflow dimension =
        Except.error (unresolvedDimMsg dimension dataflow) ↔
      dimension ∉ dsd.dimensions.map (fun d => d.name)) ∧
    (dimension ∈ dsd.dimensions.map (fun d => d.name) →
      ∀ msg, search_dataflow_dimension_values remote dataflow dimension ≠
        Except.error msg) ∧
    (∀ dims, search_dataflow_dimensions remote dataflow = Except.ok dims →
      ∀ d ∈ dims, ∀ msg,
        search_dataflow_dimension_values remote dataflow d ≠ Except.error msg) := by
  have key : ∀ dim : String, dim ∈ dsd.dimensions.map (fun d => d.name) →
      ∃ dc : DimComp, search_dataflow_dimension_values remote dataflow dim =
        Except.ok dc.enumerated := by
    intro dim hmem
    obtain ⟨dc0, hdc0, hname⟩ := List.mem_map.mp hmem
    have hsome : (dsd.dimensions.find? (fun d => d.name == dim)).isSome :=
      List.find?_isSome.mpr ⟨dc0, hdc0, by simp [hname]⟩
    obtain ⟨dc, hdc⟩ := Option.isSome_iff_exists.mp hsome
    refine ⟨dc, ?_⟩
    rw [search_values_eval remote dataflow dim dsd h, if_pos hmem, hdc]
  refine ⟨?_, ?_, ?_⟩
  · by_cases hmem : dimension ∈ dsd.dimensions.map (fun d => d.name)
    · obtain ⟨dc, hok⟩ := key dimension hmem
      rw [hok]
      simp [hmem]
    · rw [search_values_eval remote dataflow dimension dsd h, if_neg hmem]
      simp [hmem]
  · intro hmem msg
    obtain ⟨dc, hok⟩ := key dimension hmem
    rw [hok]
    intro hbad
    exact Except.noConfusion hbad
  · intro dims hdims d hd msg
    rw [search_dimensions_eval remote dataflow dsd h] at hdims
    cases hdims
    obtain ⟨dc, hok⟩ := key d hd
    rw [hok]
    intro hbad
    exact Except.noConfusion hbad

/-- Witness for C8: on the concrete provider, an absent dimension raises
the unresolved-dimension error. -/
theorem dimension_values_resolution_witness :
    search_dataflow_dimension_values exampleRemote "EXR" "EXR_TYPE" =
      Except.error (unresolvedDimMsg "EXR_TYPE" "EXR") :=
  (dimension_values_resolution exampleRemote "EXR" "EXR_TYPE" exampleDSD
    (by decide)).1.mpr (by decide)

end ECBDataInfo
